import Mathlib

/-!
Verification of the license/copyright normalization and reconciliation pipeline
of sbom2doc's simple format generator (`sbom2doc/simple_format_generator.py`).

The embedding is shallow: Python dicts become insertion-ordered association
lists (`alookup` / `aupsert`), the module-level diagnostic dicts become an
explicit `Diagnostics` state threaded through the pipeline, and the two
external collaborators (the lib4sbom `LicenseScanner` and the HTTP license
text lookup) become parameters (`LicenseScanner` structure, `String → Option
String` lookup function).
-/

set_option maxRecDepth 3000

/-- External collaborator: the lib4sbom license scanner interface, as consumed
by the generator (`find_license_id`, `DEFAULT_LICENSE`, `license_expression`). -/
structure LicenseScanner where
  find_license_id : String → String
  DEFAULT_LICENSE : String
  license_expression : String → Bool

/-! ## Python dict / set primitives

A Python `dict` is modelled as an insertion-ordered association list with
distinct keys: assignment to an existing key updates it in place, assignment
to a fresh key appends.  A dict used as a set (`d[k] = True`) is modelled as
an insertion-ordered key list (`insertKey`). -/

def alookup {α : Type} : List (String × α) → String → Option α
  | [], _ => none
  | p :: rest, k => if p.1 = k then some p.2 else alookup rest k

def aupsert {α : Type} : List (String × α) → String → α → List (String × α)
  | [], k, v => [(k, v)]
  | p :: rest, k, v => if p.1 = k then (k, v) :: rest else p :: aupsert rest k v

def akeys {α : Type} (m : List (String × α)) : List String :=
  m.map Prod.fst

def insertKey (d : List String) (k : String) : List String :=
  if k ∈ d then d else d ++ [k]

/-! ## Python `sorted` on strings

Python sorts strings ascending by code points.  We embed it as an insertion
sort with an explicit code-point-lexicographic comparison. -/

def charsLe : List Char → List Char → Bool
  | [], _ => true
  | _ :: _, [] => false
  | x :: xs, y :: ys => if x < y then true else if y < x then false else charsLe xs ys

def strLeB (a b : String) : Bool :=
  charsLe a.data b.data

def insertLe {α : Type} (le : α → α → Bool) (x : α) : List α → List α
  | [] => [x]
  | y :: ys => if le x y then x :: y :: ys else y :: insertLe le x ys

def sortLe {α : Type} (le : α → α → Bool) (l : List α) : List α :=
  l.foldr (insertLe le) []

def sortStrings (l : List String) : List String :=
  sortLe strLeB l

/-! ## Structural embeddings of the Python string operations used by the
pipeline (`in`, `strip`, `upper`, `startswith`), defined over the character
list so they evaluate. -/

def startsWithChars : List Char → List Char → Bool
  | [], _ => true
  | _ :: _, [] => false
  | x :: xs, y :: ys => x = y && startsWithChars xs ys

/-- Python `s.startswith(pre)`. -/
def pyStartsWith (s pre : String) : Bool :=
  startsWithChars pre.data s.data

/-- Python `s.strip()`: drop whitespace from both ends. -/
def pyStrip (s : String) : String :=
  String.mk (((s.data.dropWhile Char.isWhitespace).reverse.dropWhile
    Char.isWhitespace).reverse)

/-- Python `s.upper()` (ASCII, as needed for license ids). -/
def pyUpper (s : String) : String :=
  String.mk (s.data.map Char.toUpper)

/-! ## The license synonym table (module-level constants, lines 15-51) -/

def license_syns : List (String × List String) := [
  ("Apache-2.0", [
    "https://www.apache.org/licenses/LICENSE-2.0;description=Apache-2.0",
    "https://www.apache.org/licenses/LICENSE-2.0.txt",
    "http://www.apache.org/licenses/LICENSE-2.0.txt",
    "https://www.apache.org/licenses/LICENSE-2.0.html",
    "https://www.apache.org/licenses/LICENSE-2.0",
    "http://www.apache.org/licenses/LICENSE-2.0.html;description=Apache 2.0 License",
    "Apache-2.0 license",
    "\"Apache License 2.0\";link=\"http://www.apache.org/licenses/LICENSE-2.0.html\""]),
  ("BSD-3-Clause", [
    "https://opensource.org/licenses/BSD-3-Clause",
    "3-Clause BSD License",
    "http://www.eclipse.org/org/documents/edl-v10.php",
    "BSD 3-Clause",
    "BSD 3-Clause License"]),
  ("BSD-2-Clause", [
    "https://opensource.org/licenses/BSD-2-Clause",
    "https://opensource.org/licenses/BSD-2-Clause;description=BSD 2-Clause License"]),
  ("CDDL-1.1", [
    "https://github.com/javaee/activation/blob/master/LICENSE.txt"]),
  ("ZPL-2.1", [
    "ZPL 2.1"]),
  ("MIT", [
    "http://www.opensource.org/licenses/mit-license.php"])]

def license_syns_reverse : List (String × String) :=
  license_syns.foldl (fun acc kv => kv.2.foldl (fun acc kk => aupsert acc kk kv.1) acc) []

/-- The license resolver (`_find_license_id`, lines 114-124): synonym table
first, then the generic scanner, then the input unchanged. -/
def _find_license_id (license_info : LicenseScanner) (value : String) : String :=
  match alookup license_syns_reverse value with
  | some id => id
  | none =>
    let found := license_info.find_license_id value
    if found ≠ license_info.DEFAULT_LICENSE then found else value

/-- Truncation helper (`_ensure_len`, lines 58-65).  `Except` models the
raised exception; `none` models Python `None` passing through. -/
def _ensure_len (text : Option String) (max_len : Int) : Except String (Option String) :=
  if max_len < 3 then Except.error "At least 3 min length! Better 10..."
  else
    match text with
    | none => Except.ok none
    | some s =>
      if (s.length : Int) > max_len then
        Except.ok (some (String.mk (s.data.take (max_len - 3).toNat) ++ "..."))
      else Except.ok (some s)

/-! ## SBOM records (the fields the generator consumes) -/

structure LicenseSub where
  id : Option String
  name : Option String
  text : Option String
deriving DecidableEq

structure LicenseListItem where
  license : Option LicenseSub
deriving DecidableEq

structure SbomRecord where
  id : Option String := none
  name : Option String := none
  version : Option String := none
  type : Option String := none
  supplier : Option String := none
  licenselist : Option (List LicenseListItem) := none
  licenseconcluded : Option String := none
  copyrighttext : Option String := none
deriving DecidableEq

def pnameOf (o : SbomRecord) : String :=
  o.name.getD "(package name missing)"

/-- The `license_list_simple` computation inside `_get_licenses` (lines 74-85):
per entry take `id`, else `name`, else `text`; skip entries with none. -/
def licenseListSimple (o : SbomRecord) : List String :=
  match o.licenselist with
  | none => []
  | some license_list =>
    if 0 < license_list.length then
      license_list.filterMap (fun l =>
        match l.license with
        | none => none
        | some lic =>
          match lic.id with
          | some i => some i
          | none =>
            match lic.name with
            | some n => some n
            | none =>
              match lic.text with
              | some t => some t
              | none => none)
    else []

/-- License extractor (`_get_licenses`, lines 68-93).  The second component is
the `license_info_missing_package_id_list` diagnostic set. -/
def _get_licenses (o : SbomRecord) (diag : List String) : List String × List String :=
  let package_name := pnameOf o
  let simple := licenseListSimple o
  if 0 < simple.length then (simple, diag)
  else
    let lic := o.licenseconcluded.getD "NOT KNOWN"
    if lic = "NOT KNOWN" then ([lic], insertKey diag package_name)
    else ([lic], diag)

/-- Copyright extractor (`_get_copyright`, lines 95-101).  The second component
is the `copyright_info_missing_package_name_list` diagnostic set. -/
def _get_copyright (o : SbomRecord) (diag : List String) : String × List String :=
  let name := pnameOf o
  let failed_text := "Not extracted, please search " ++ name
  let result := o.copyrighttext.getD failed_text
  if failed_text = result then (result, insertKey diag name)
  else (result, diag)

/-! ## The frequency table (lines 171-173)

`for items in sorted(sbom_licenses): freq[items] = sbom_licenses.count(items)` -/

def buildFreq (sbom_licenses : List String) : List (String × Nat) :=
  (sortStrings sbom_licenses).foldl
    (fun freq items => aupsert freq items (sbom_licenses.count items)) []

/-! ## Grouping by resolved id (lines 182-220) -/

/-- Observable log/print events of the grouping loop.  The conflict message is
printed in both debug and non-debug mode (with different verbosity); we model
it as one event. -/
inductive LogEvent where
  | exprWarning (k : String)
  | conflict (id newText oldText : String)
deriving DecidableEq

/-- One iteration of the `for k in freq.keys()` grouping loop.  The state is
the `licenses_by_id` dict (entry `{"id": k, "license_text": t}` is stored at
key `k`, so the entry is represented by its `license_text` alone) together
with the emitted log events. -/
def groupStep (license_info : LicenseScanner)
    (st : List (String × Option String) × List LogEvent) (k0 : String) :
    List (String × Option String) × List LogEvent :=
  if k0 = "NOT KNOWN" then st
  else
    let license_text : Option String :=
      if 200 < k0.length ∧ '\n' ∈ k0.data then some k0 else none
    let log :=
      if 200 < k0.length ∧ '\n' ∈ k0.data then st.2
      else if license_info.license_expression k0 then st.2 ++ [LogEvent.exprWarning k0]
      else st.2
    let resolved := _find_license_id license_info k0
    let k := if resolved ≠ k0 then resolved else k0
    match alookup st.1 k with
    | some existing_text =>
      let log :=
        match license_text, existing_text with
        | some nt, some et => if nt ≠ et then log ++ [LogEvent.conflict k nt et] else log
        | _, _ => log
      let license_text := if existing_text.isSome then existing_text else license_text
      (aupsert st.1 k license_text, log)
    | none => (aupsert st.1 k license_text, log)

def groupLicenses (license_info : LicenseScanner) (ks : List String) :
    List (String × Option String) × List LogEvent :=
  ks.foldl (groupStep license_info) ([], [])

/-! ## Enrichment (lines 222-268) -/

/-- Enrichment of one grouped entry when `include_license` is set.  `lookup`
models the `https://spdx.org/licenses/id.json` fetch: `none` stands for a
request exception or a response without a `licenseText` field. -/
def enrichText (license_info : LicenseScanner) (lookup : String → Option String)
    (additional_license_texts : Option (List (String × String)))
    (key : String) (text : Option String) : Option String :=
  if key = "NOASSERTION" then text
  else if text.isSome then text
  else if 200 < key.length then text
  else if license_info.license_expression key then text
  else
    let key_stripped := pyStrip key
    if ' ' ∈ key_stripped.data then text
    else if pyStartsWith key_stripped "http" = true then text
    else
      match lookup key_stripped with
      | some t => some t
      | none =>
        match additional_license_texts with
        | some tbl =>
          match alookup tbl (pyUpper key_stripped) with
          | some t => some t
          | none => text
        | none => text

def enrichAll (license_info : LicenseScanner) (lookup : String → Option String)
    (additional_license_texts : Option (List (String × String)))
    (m : List (String × Option String)) : List (String × Option String) :=
  m.map (fun p => (p.1, enrichText license_info lookup additional_license_texts p.1 p.2))

/-! ## License text appendix rendering (lines 314-333)

Only its diagnostic effect matters: entries sorted by id; ids in
["UNKNOWN", "NOASSERTION", ""] skipped; entries still lacking a text are
recorded in `unknown_license_text_id_list`. -/

def renderUnknown (m : List (String × Option String)) (d : List String) : List String :=
  (sortLe (fun a b => strLeB a.1 b.1) m).foldl
    (fun d l =>
      if l.1 = "UNKNOWN" ∨ l.1 = "NOASSERTION" ∨ l.1 = "" then d
      else
        match l.2 with
        | some _ => d
        | none => insertKey d l.1)
    d

/-! ## The whole diagnostic-and-data pipeline of `generate_document` -/

/-- The three module-level diagnostic dicts (lines 54-56), as explicit state. -/
structure Diagnostics where
  license_info_missing_package_id_list : List String
  copyright_info_missing_package_name_list : List String
  unknown_license_text_id_list : List String
deriving DecidableEq

def emptyDiag : Diagnostics := ⟨[], [], []⟩

/-- One iteration of the license collection loops (lines 164-169): extend
`sbom_licenses`, thread the missing-license diagnostic set. -/
def collectStep (acc : List String × List String) (r : SbomRecord) :
    List String × List String :=
  let res := _get_licenses r acc.2
  (acc.1 ++ res.1, res.2)

/-- One iteration of the package information loop (lines 276-311), restricted
to its diagnostic effects: `_get_licenses` is called again for display (it can
add to the missing-license set), then `_get_copyright`. -/
def packageLoopStep (acc : List String × List String) (p : SbomRecord) :
    List String × List String :=
  let d1 := (_get_licenses p acc.1).2
  let d2 := (_get_copyright p acc.2).2
  (d1, d2)

/-- Result of one `generate_document` call: the data the claims are about. -/
structure GenResult where
  sbom_licenses : List String
  freq : List (String × Nat)
  licenses_by_id : List (String × Option String)
  log : List LogEvent
  diag : Diagnostics

/-- The license/diagnostic pipeline of `generate_document` (lines 103-394),
with document-builder output and CSV writing elided (they consume, never
produce, the modelled data).  The module-level diagnostic dicts enter as
`diag0` and leave in the result. -/
def generate_document (license_info : LicenseScanner) (lookup : String → Option String)
    (include_license : Bool) (additional_license_texts : Option (List (String × String)))
    (packages files : List SbomRecord) (diag0 : Diagnostics) : GenResult :=
  let acc := files.foldl collectStep
    (packages.foldl collectStep ([], diag0.license_info_missing_package_id_list))
  let sbom_licenses := acc.1
  let freq := buildFreq sbom_licenses
  let grouped := groupLicenses license_info (freq.map Prod.fst)
  let licenses_by_id :=
    if include_license then
      enrichAll license_info lookup additional_license_texts grouped.1
    else grouped.1
  let pkg := packages.foldl packageLoopStep
    (acc.2, diag0.copyright_info_missing_package_name_list)
  let unknown :=
    if include_license then renderUnknown licenses_by_id diag0.unknown_license_text_id_list
    else diag0.unknown_license_text_id_list
  { sbom_licenses := sbom_licenses, freq := freq, licenses_by_id := licenses_by_id,
    log := grouped.2, diag := ⟨pkg.1, pkg.2, unknown⟩ }

/-! ## Diagnostic CSV reports (lines 366-394), as pure line lists -/

def csvMissingLicenseLines (d : Diagnostics) : List String :=
  "\"package id\",\"license id\"" ::
    d.license_info_missing_package_id_list.map (fun k => "\"" ++ k ++ "\",\"\"")

def csvMissingCopyrightLines (d : Diagnostics) : List String :=
  "\"package id\",\"copyright info\"" ::
    d.copyright_info_missing_package_name_list.map (fun k => "\"" ++ k ++ "\",\"\"")

def csvMissingLicenseTextLines (d : Diagnostics) : List String :=
  "\"license id\",\"original id synonym\",\"license text\"" ::
    d.unknown_license_text_id_list.map (fun k => "\"" ++ k ++ "\",\"\",\"\"")

/-! ## Concrete instances for witnesses and counterexamples -/

/-- A scanner that recognizes nothing: `find_license_id` always returns the
default sentinel and no string is classified as an expression. -/
def scU : LicenseScanner :=
  ⟨fun _ => "UNKNOWN", "UNKNOWN", fun _ => false⟩

/-- A scanner that classifies `"MIT OR GPL-2.0"` as a license expression and
whose generic lookup resolves that very string to `"MIT"`. -/
def sc3 : LicenseScanner :=
  ⟨fun s => if s = "MIT OR GPL-2.0" then "MIT" else "UNKNOWN",
   "UNKNOWN",
   fun s => s = "MIT OR GPL-2.0"⟩

/-- A long multiline license text (length 211, contains a newline). -/
def bigTextA : String :=
  String.mk ('\n' :: List.replicate 210 'a')

/-- A different long multiline license text (length 211, contains a newline). -/
def bigTextB : String :=
  String.mk ('\n' :: List.replicate 210 'b')

/-- A scanner that resolves both big texts to the id `"MIT"`. -/
def scB : LicenseScanner :=
  ⟨fun s => if s = bigTextA ∨ s = bigTextB then "MIT" else "UNKNOWN",
   "UNKNOWN",
   fun _ => false⟩

/-- The always-failing external license text lookup. -/
def lookupNone : String → Option String := fun _ => none

/-- Package whose only license reference is an Apache-2.0 URL form. -/
def pApacheUrl : SbomRecord :=
  { licenseconcluded := some "https://www.apache.org/licenses/LICENSE-2.0" }

/-- Package whose only license reference is the free-text `"Apache-2.0 license"`. -/
def pApacheName : SbomRecord :=
  { licenseconcluded := some "Apache-2.0 license" }

/-- Package with distinct id and name, no license list and no concluded license. -/
def pMissing : SbomRecord :=
  { id := some "pkg-id-1", name := some "pkg-name-1" }

/-- Package whose copyright text happens to equal the extractor's placeholder. -/
def pCopyCollision : SbomRecord :=
  { name := some "X", copyrighttext := some "Not extracted, please search X" }

/-- Package whose concluded license is the literal string `"UNKNOWN"`. -/
def pUnknown : SbomRecord :=
  { name := some "u-pkg", licenseconcluded := some "UNKNOWN" }

/-- Package used as the input of a second `generate_document` call. -/
def qMissing : SbomRecord :=
  { id := some "q-id", name := some "q-name" }

/-- Package with a structured license list and a (to-be-ignored) concluded license. -/
def pLicList : SbomRecord :=
  { licenselist := some [⟨some ⟨some "MIT", none, none⟩⟩],
    licenseconcluded := some "GPL-2.0" }

/-- Package with a name and an ordinary copyright text. -/
def pCopyGood : SbomRecord :=
  { name := some "Y", copyrighttext := some "(c) ACME" }

/-- The condition under which `_get_licenses` records its record in the
missing-license diagnostic set. -/
def licMissing (o : SbomRecord) : Bool :=
  decide (¬ 0 < (licenseListSimple o).length
    ∧ o.licenseconcluded.getD "NOT KNOWN" = "NOT KNOWN")

/-- The condition under which `_get_copyright` records its record in the
missing-copyright diagnostic set. -/
def copyMissing (o : SbomRecord) : Bool :=
  decide (("Not extracted, please search " ++ pnameOf o)
    = o.copyrighttext.getD ("Not extracted, please search " ++ pnameOf o))

/-- The condition under which the license-text rendering stage records an
entry in the missing-license-text diagnostic set. -/
def renderEligible (p : String × Option String) : Bool :=
  decide (¬ (p.1 = "UNKNOWN" ∨ p.1 = "NOASSERTION" ∨ p.1 = "") ∧ p.2 = none)

/-! # Theorems -/

/-! ## Association list and key-set lemmas -/

theorem alookup_mem {α : Type} {m : List (String × α)} {k : String} {v : α}
    (h : alookup m k = some v) : (k, v) ∈ m := by
  induction m with
  | nil => simp [alookup] at h
  | cons p rest ih =>
    by_cases hp : p.1 = k
    · simp only [alookup, if_pos hp, Option.some.injEq] at h
      have : p = (k, v) := by
        cases p
        simp_all
      rw [← this]
      exact List.mem_cons_self _ _
    · simp only [alookup, if_neg hp] at h
      exact List.mem_cons_of_mem _ (ih h)

theorem alookup_isSome_of_mem_akeys {α : Type} {m : List (String × α)} {k : String}
    (h : k ∈ akeys m) : ∃ v, alookup m k = some v := by
  induction m with
  | nil => simp [akeys] at h
  | cons p rest ih =>
    by_cases hp : p.1 = k
    · exact ⟨p.2, by simp [alookup, if_pos hp]⟩
    · have : k ∈ akeys rest := by
        simp only [akeys, List.map_cons, List.mem_cons] at h
        rcases h with h | h
        · exact absurd h.symm hp
        · exact h
      obtain ⟨v, hv⟩ := ih this
      exact ⟨v, by simp [alookup, if_neg hp, hv]⟩

theorem mem_akeys_of_alookup {α : Type} {m : List (String × α)} {k : String} {v : α}
    (h : alookup m k = some v) : k ∈ akeys m := by
  have := alookup_mem h
  exact List.mem_map_of_mem Prod.fst this

theorem alookup_aupsert_self {α : Type} (m : List (String × α)) (k : String) (v : α) :
    alookup (aupsert m k v) k = some v := by
  induction m with
  | nil => simp [aupsert, alookup]
  | cons p rest ih =>
    by_cases hp : p.1 = k
    · simp [aupsert, if_pos hp, alookup]
    · simp [aupsert, if_neg hp, alookup, hp, ih]

theorem alookup_aupsert_ne {α : Type} (m : List (String × α)) (k : String) (v : α)
    {a : String} (ha : a ≠ k) : alookup (aupsert m k v) a = alookup m a := by
  have hka : ¬ k = a := fun he => ha he.symm
  induction m with
  | nil => simp [aupsert, alookup, hka]
  | cons p rest ih =>
    by_cases hp : p.1 = k
    · have hpa : ¬ p.1 = a := fun he => hka (hp.symm.trans he)
      simp [aupsert, if_pos hp, alookup, hka, hpa]
    · simp only [aupsert, if_neg hp, alookup]
      by_cases hpa : p.1 = a
      · simp [if_pos hpa]
      · simp [if_neg hpa, ih]

theorem mem_akeys_aupsert {α : Type} (m : List (String × α)) (k : String) (v : α)
    (a : String) : a ∈ akeys (aupsert m k v) ↔ a = k ∨ a ∈ akeys m := by
  induction m with
  | nil => simp [aupsert, akeys]
  | cons p rest ih =>
    by_cases hp : p.1 = k
    · simp only [aupsert, if_pos hp, akeys, List.map_cons, List.mem_cons]
      rw [hp]
      tauto
    · simp only [aupsert, if_neg hp, akeys, List.map_cons, List.mem_cons]
      simp only [akeys] at ih
      rw [ih]
      tauto

theorem mem_aupsert {α : Type} {m : List (String × α)} {k : String} {v : α}
    {p : String × α} (h : p ∈ aupsert m k v) : p = (k, v) ∨ p ∈ m := by
  induction m with
  | nil =>
    simp only [aupsert, List.mem_singleton] at h
    exact Or.inl h
  | cons q rest ih =>
    by_cases hq : q.1 = k
    · rw [aupsert, if_pos hq] at h
      rcases List.mem_cons.mp h with h | h
      · exact Or.inl h
      · exact Or.inr (List.mem_cons_of_mem _ h)
    · rw [aupsert, if_neg hq] at h
      rcases List.mem_cons.mp h with h | h
      · exact Or.inr (h ▸ List.mem_cons_self _ _)
      · rcases ih h with h | h
        · exact Or.inl h
        · exact Or.inr (List.mem_cons_of_mem _ h)

theorem akeys_nodup_aupsert {α : Type} {m : List (String × α)} (k : String) (v : α)
    (h : (akeys m).Nodup) : (akeys (aupsert m k v)).Nodup := by
  induction m with
  | nil => simp [aupsert, akeys]
  | cons p rest ih =>
    by_cases hp : p.1 = k
    · simp only [aupsert, if_pos hp, akeys, List.map_cons, List.nodup_cons] at h ⊢
      rw [← hp]
      exact h
    · simp only [aupsert, if_neg hp, akeys, List.map_cons, List.nodup_cons] at h ⊢
      refine ⟨?_, ih h.2⟩
      intro hmem
      rcases (mem_akeys_aupsert rest k v p.1).mp hmem with he | hmem
      · exact hp he
      · exact h.1 hmem

/-! ## Key-set (`insertKey`) lemmas -/

theorem mem_insertKey {d : List String} {k a : String} :
    a ∈ insertKey d k ↔ a ∈ d ∨ a = k := by
  unfold insertKey
  by_cases h : k ∈ d
  · rw [if_pos h]
    constructor
    · exact Or.inl
    · rintro (ha | rfl)
      · exact ha
      · exact h
  · rw [if_neg h]
    simp [List.mem_append]

/-! ## Sorting lemmas -/

theorem perm_insertLe {α : Type} (le : α → α → Bool) (x : α) (l : List α) :
    List.Perm (insertLe le x l) (x :: l) := by
  induction l with
  | nil => rfl
  | cons y ys ih =>
    unfold insertLe
    by_cases h : le x y
    · rw [if_pos h]
    · rw [if_neg h]
      exact List.Perm.trans (List.Perm.cons y ih) (List.Perm.swap x y ys)

theorem perm_sortLe {α : Type} (le : α → α → Bool) (l : List α) :
    List.Perm (sortLe le l) l := by
  induction l with
  | nil => rfl
  | cons x xs ih =>
    unfold sortLe at *
    simp only [List.foldr_cons]
    exact List.Perm.trans (perm_insertLe le x _) (List.Perm.cons x ih)

theorem mem_sortLe {α : Type} (le : α → α → Bool) (l : List α) (a : α) :
    a ∈ sortLe le l ↔ a ∈ l :=
  (perm_sortLe le l).mem_iff

/-! ## C2: resolver contract -/

/-- C2: for every raw string that is a key of the synonym table the resolver
returns the mapped canonical id; for every raw string missed by the table for
which the scanner returns its default sentinel, the resolver returns the input
unchanged.  (The resolver is a total function, so it never raises.) -/
theorem c2_resolver (license_info : LicenseScanner) (raw : String) :
    (∀ id, alookup license_syns_reverse raw = some id →
      _find_license_id license_info raw = id)
    ∧ (alookup license_syns_reverse raw = none →
      license_info.find_license_id raw = license_info.DEFAULT_LICENSE →
      _find_license_id license_info raw = raw) := by
  constructor
  · intro id h
    simp [_find_license_id, h]
  · intro h hdef
    simp [_find_license_id, h, hdef]

/-- C2 witness: a synonym-table hit and an unrecognized string, concretely. -/
theorem c2_witness :
    _find_license_id scU "Apache-2.0 license" = "Apache-2.0"
    ∧ _find_license_id scU "Zork-1.0" = "Zork-1.0" :=
  ⟨(c2_resolver scU "Apache-2.0 license").1 "Apache-2.0" (by decide),
   (c2_resolver scU "Zork-1.0").2 (by decide) (by decide)⟩

/-! ## C8: truncation helper -/

/-- C8: for every string and every maximum length n ≥ 3 the truncation helper
returns a string of length at most n, keeping the first n−3 characters plus a
3-character ellipsis when the text exceeds n and returning the text unchanged
otherwise; for every n < 3 it raises regardless of the text argument. -/
theorem c8_ensure_len (s : String) (n : Int) :
    (3 ≤ n →
      ∃ r, _ensure_len (some s) n = Except.ok (some r)
        ∧ (r.length : Int) ≤ n
        ∧ (n < (s.length : Int) → r = String.mk (s.data.take (n - 3).toNat) ++ "...")
        ∧ ((s.length : Int) ≤ n → r = s))
    ∧ (n < 3 → ∀ t, _ensure_len t n = Except.error "At least 3 min length! Better 10...") := by
  constructor
  · intro h3
    have hn : ¬ n < 3 := not_lt.mpr h3
    by_cases hlen : (s.length : Int) > n
    · refine ⟨String.mk (s.data.take (n - 3).toNat) ++ "...", ?_, ?_, ?_, ?_⟩
      · simp [_ensure_len, hn, hlen]
      · have h1 : (String.mk (s.data.take (n - 3).toNat) ++ "...").length
            = (s.data.take (n - 3).toNat).length + 3 := by
          rw [String.length_append]
          rfl
        rw [h1, List.length_take]
        push_cast
        omega
      · intro _
        rfl
      · intro hle
        exact absurd hlen (not_lt.mpr hle)
    · refine ⟨s, ?_, ?_, ?_, ?_⟩
      · simp [_ensure_len, hn, hlen]
      · exact not_lt.mp hlen
      · intro hlt
        exact absurd hlt hlen
      · intro _
        rfl
  · intro hlt t
    simp [_ensure_len, hlt]

/-- C8 witness: truncation at n = 4 and failure at n = 2, concretely. -/
theorem c8_witness :
    (∃ r, _ensure_len (some "abcdef") 4 = Except.ok (some r)
      ∧ (r.length : Int) ≤ 4
      ∧ (4 < (("abcdef" : String).length : Int) →
          r = String.mk (("abcdef" : String).data.take ((4 : Int) - 3).toNat) ++ "...")
      ∧ ((("abcdef" : String).length : Int) ≤ 4 → r = "abcdef"))
    ∧ _ensure_len none 2 = Except.error "At least 3 min length! Better 10..." :=
  ⟨(c8_ensure_len "abcdef" 4).1 (by decide),
   (c8_ensure_len "x" 2).2 (by decide) none⟩

/-! ## C5: license extractor fallback (corrected: the record's name, not its
id, is recorded in the missing-license diagnostic set) -/

/-- C5 counterexample: for a record whose id and name differ, with no license
list entries and no concluded license, the extractor returns ["NOT KNOWN"] but
records the package NAME, not the package id, in the missing-license
diagnostic set — refuting the claim that the id is added. -/
theorem c5_counterexample :
    _get_licenses pMissing [] = (["NOT KNOWN"], ["pkg-name-1"])
    ∧ pMissing.id = some "pkg-id-1"
    ∧ "pkg-id-1" ∉ (_get_licenses pMissing []).2 := by decide

/-- C5 amended: when the structured license list yields no entries and there
is no licenseconcluded field, the extractor returns exactly ["NOT KNOWN"] and
adds the record's NAME (with a placeholder default when the name is missing)
to the missing-license diagnostic set; when the structured list yields at
least one entry, that list is returned, the licenseconcluded field is ignored
entirely and the diagnostic set is unchanged. -/
theorem c5_extractor (o : SbomRecord) (d : List String) :
    (licenseListSimple o = [] → o.licenseconcluded = none →
      _get_licenses o d = (["NOT KNOWN"], insertKey d (pnameOf o)))
    ∧ (licenseListSimple o ≠ [] →
      _get_licenses o d = (licenseListSimple o, d)) := by
  constructor
  · intro h hc
    simp [_get_licenses, h, hc]
  · intro h
    have hl : 0 < (licenseListSimple o).length := List.length_pos.mpr h
    simp [_get_licenses, hl]

/-- C5 witness: both arms of the amended extractor contract, concretely. -/
theorem c5_witness :
    _get_licenses pMissing ["w"] = (["NOT KNOWN"], insertKey ["w"] (pnameOf pMissing))
    ∧ _get_licenses pLicList [] = (licenseListSimple pLicList, []) :=
  ⟨(c5_extractor pMissing ["w"]).1 (by decide) (by decide),
   (c5_extractor pLicList []).2 (by decide)⟩

/-! ## C9: copyright extractor (corrected: presence is tested by comparing the
value against the placeholder, so a placeholder-valued field still records) -/

/-- C9 counterexample: a record whose copyrighttext field is present but
happens to equal the placeholder text: the extractor returns the field value
yet still records the name in the missing-copyright diagnostic set — refuting
the claim that nothing is recorded whenever the field is present. -/
theorem c9_counterexample :
    pCopyCollision.copyrighttext = some "Not extracted, please search X"
    ∧ _get_copyright pCopyCollision [] = ("Not extracted, please search X", ["X"])
    ∧ "X" ∈ (_get_copyright pCopyCollision []).2 := by decide

/-- C9 amended: the extractor returns the copyrighttext field when present and
records nothing, provided the value differs from the templated placeholder for
that name; when the field is absent it returns the placeholder and records the
name; when the field is present but equals the placeholder it returns the
value and still records the name. -/
theorem c9_copyright (o : SbomRecord) (d : List String) :
    (∀ c, o.copyrighttext = some c →
      c ≠ "Not extracted, please search " ++ pnameOf o →
      _get_copyright o d = (c, d))
    ∧ (o.copyrighttext = none →
      _get_copyright o d =
        ("Not extracted, please search " ++ pnameOf o, insertKey d (pnameOf o)))
    ∧ (∀ c, o.copyrighttext = some c →
      c = "Not extracted, please search " ++ pnameOf o →
      _get_copyright o d = (c, insertKey d (pnameOf o))) := by
  refine ⟨?_, ?_, ?_⟩
  · intro c hc hne
    have : ¬ ("Not extracted, please search " ++ pnameOf o) = c := fun he => hne he.symm
    simp [_get_copyright, hc, this]
  · intro hc
    simp [_get_copyright, hc]
  · intro c hc he
    simp [_get_copyright, hc, he]

/-- C9 witness: an ordinary present copyright text and an absent one. -/
theorem c9_witness :
    _get_copyright pCopyGood [] = ("(c) ACME", [])
    ∧ _get_copyright pMissing [] =
        ("Not extracted, please search " ++ pnameOf pMissing,
         insertKey [] (pnameOf pMissing)) :=
  ⟨(c9_copyright pCopyGood []).1 "(c) ACME" (by decide) (by decide),
   (c9_copyright pMissing []).2.1 (by decide)⟩

/-! ## Grouping-step lemmas (for C1 and C3) -/

theorem resolve_if_collapse (license_info : LicenseScanner) (k0 : String) :
    (if _find_license_id license_info k0 ≠ k0 then _find_license_id license_info k0 else k0)
      = _find_license_id license_info k0 := by
  by_cases h : _find_license_id license_info k0 = k0 <;> simp [h]

theorem groupStep_nodup (license_info : LicenseScanner)
    (st : List (String × Option String) × List LogEvent) (k0 : String)
    (h : (akeys st.1).Nodup) : (akeys (groupStep license_info st k0).1).Nodup := by
  by_cases hk : k0 = "NOT KNOWN"
  · simpa [groupStep, hk] using h
  · cases halo : alookup st.1 (_find_license_id license_info k0) with
    | some existing =>
      simp only [groupStep, if_neg hk, resolve_if_collapse, halo]
      exact akeys_nodup_aupsert _ _ h
    | none =>
      simp only [groupStep, if_neg hk, resolve_if_collapse, halo]
      exact akeys_nodup_aupsert _ _ h

theorem groupStep_preserve (license_info : LicenseScanner)
    (st : List (String × Option String) × List LogEvent) (k0 : String)
    {id : String} {t : String}
    (h : alookup st.1 id = some (some t)) :
    alookup (groupStep license_info st k0).1 id = some (some t) := by
  by_cases hk : k0 = "NOT KNOWN"
  · simpa [groupStep, hk] using h
  · by_cases hid : _find_license_id license_info k0 = id
    · cases halo : alookup st.1 (_find_license_id license_info k0) with
      | some existing =>
        have he : existing = some t := by
          rw [hid, h] at halo
          injection halo with he
          exact he.symm
        subst he
        simp only [groupStep, if_neg hk, resolve_if_collapse, halo, Option.isSome_some,
          if_true]
        rw [hid]
        exact alookup_aupsert_self _ _ _
      | none =>
        rw [hid, h] at halo
        exact absurd halo (by simp)
    · have hne : id ≠ _find_license_id license_info k0 := fun he => hid he.symm
      cases halo : alookup st.1 (_find_license_id license_info k0) with
      | some existing =>
        simp only [groupStep, if_neg hk, resolve_if_collapse, halo]
        rw [alookup_aupsert_ne _ _ _ hne]
        exact h
      | none =>
        simp only [groupStep, if_neg hk, resolve_if_collapse, halo]
        rw [alookup_aupsert_ne _ _ _ hne]
        exact h

theorem groupStep_conflict (license_info : LicenseScanner)
    (st : List (String × Option String) × List LogEvent) (k0 t' : String)
    (h200 : 200 < k0.length) (hnl : '\n' ∈ k0.data)
    (hk : k0 ≠ "NOT KNOWN")
    (hex : alookup st.1 (_find_license_id license_info k0) = some (some t'))
    (hne : k0 ≠ t') :
    LogEvent.conflict (_find_license_id license_info k0) k0 t'
      ∈ (groupStep license_info st k0).2
    ∧ alookup (groupStep license_info st k0).1 (_find_license_id license_info k0)
      = some (some t') := by
  constructor
  · simp only [groupStep, if_neg hk, resolve_if_collapse, hex, h200, hnl, and_self,
      if_true, true_and]
    simp [hne]
  · simp only [groupStep, if_neg hk, resolve_if_collapse, hex, Option.isSome_some, if_true]
    exact alookup_aupsert_self _ _ _

/-! ## C1: conflict detection and first-text retention -/

/-- C1: over any grouping iteration, the grouped map keeps distinct canonical
ids (so at most one license_text per id); an id whose stored entry has a
non-null text keeps exactly that text through all further iterations (texts
are never merged or replaced); and at any step where a value classified as a
license-text blob resolves to an id whose stored text is non-null and
different, a conflict event is logged and the stored text is retained. -/
theorem c1_conflict_retention (license_info : LicenseScanner) (ks : List String)
    (byId : List (String × Option String)) (log : List LogEvent)
    (hnd : (akeys byId).Nodup) :
    ((akeys (ks.foldl (groupStep license_info) (byId, log)).1).Nodup
      ∧ ∀ id t, alookup byId id = some (some t) →
          alookup (ks.foldl (groupStep license_info) (byId, log)).1 id = some (some t))
    ∧ (∀ k0 t', 200 < k0.length → '\n' ∈ k0.data → k0 ≠ "NOT KNOWN" →
        alookup byId (_find_license_id license_info k0) = some (some t') → k0 ≠ t' →
        LogEvent.conflict (_find_license_id license_info k0) k0 t'
          ∈ (groupStep license_info (byId, log) k0).2
        ∧ alookup (groupStep license_info (byId, log) k0).1
            (_find_license_id license_info k0) = some (some t')) := by
  constructor
  · induction ks generalizing byId log with
    | nil => exact ⟨hnd, fun id t h => h⟩
    | cons k ks ih =>
      simp only [List.foldl_cons]
      have h1 := groupStep_nodup license_info (byId, log) k hnd
      have h2 := ih (groupStep license_info (byId, log) k).1
        (groupStep license_info (byId, log) k).2 h1
      exact ⟨h2.1, fun id t h =>
        h2.2 id t (groupStep_preserve license_info (byId, log) k h)⟩
  · intro k0 t' h200 hnl hk hex hne
    exact groupStep_conflict license_info (byId, log) k0 t' h200 hnl hk hex hne

/-- C1 witness: a 211-character multiline text resolving to "MIT" meets a
stored different text: the conflict is logged and the stored text retained. -/
theorem c1_witness :
    LogEvent.conflict (_find_license_id scB bigTextB) bigTextB bigTextA
      ∈ (groupStep scB ([("MIT", some bigTextA)], []) bigTextB).2
    ∧ alookup (groupStep scB ([("MIT", some bigTextA)], []) bigTextB).1
        (_find_license_id scB bigTextB) = some (some bigTextA) :=
  (c1_conflict_retention scB [] [("MIT", some bigTextA)] [] (by decide)).2
    bigTextB bigTextA (by decide) (by decide) (by decide) (by decide) (by decide)

/-! ## C3: expressions are warned about but still resolved (corrected) -/

/-- C3 counterexample: with a scanner that classifies "MIT OR GPL-2.0" as a
license expression and resolves it to "MIT", the grouping loop groups the
value under the resolved id "MIT", not under the original expression string —
refuting the claim that id resolution is not attempted on expressions. -/
theorem c3_counterexample :
    (groupLicenses sc3 ["MIT OR GPL-2.0"]).1 = [("MIT", none)]
    ∧ alookup (groupLicenses sc3 ["MIT OR GPL-2.0"]).1 "MIT OR GPL-2.0" = none
    ∧ LogEvent.exprWarning "MIT OR GPL-2.0"
        ∈ (groupLicenses sc3 ["MIT OR GPL-2.0"]).2 := by decide

/-- C3 amended: for every collected value classified as a boolean license
expression (and not as a license-text blob), the engine emits a warning, but
id resolution IS still attempted: the value is grouped under the key returned
by the resolver (which equals the original string only when both the synonym
table and the scanner fail to resolve it). -/
theorem c3_expression_grouping (license_info : LicenseScanner)
    (st : List (String × Option String) × List LogEvent) (k0 : String)
    (hnb : ¬ (200 < k0.length ∧ '\n' ∈ k0.data))
    (hexpr : license_info.license_expression k0 = true)
    (hk : k0 ≠ "NOT KNOWN") :
    LogEvent.exprWarning k0 ∈ (groupStep license_info st k0).2
    ∧ _find_license_id license_info k0 ∈ akeys (groupStep license_info st k0).1 := by
  constructor
  · cases halo : alookup st.1 (_find_license_id license_info k0) with
    | some existing =>
      simp only [groupStep, if_neg hk, resolve_if_collapse, halo, if_neg hnb, hexpr,
        if_true]
      cases existing <;> simp
    | none =>
      simp only [groupStep, if_neg hk, resolve_if_collapse, halo, if_neg hnb, hexpr,
        if_true]
      simp
  · cases halo : alookup st.1 (_find_license_id license_info k0) with
    | some existing =>
      simp only [groupStep, if_neg hk, resolve_if_collapse, halo]
      rw [mem_akeys_aupsert]
      exact Or.inl rfl
    | none =>
      simp only [groupStep, if_neg hk, resolve_if_collapse, halo]
      rw [mem_akeys_aupsert]
      exact Or.inl rfl

/-- C3 witness: the amended behavior at the concrete expression input. -/
theorem c3_witness :
    LogEvent.exprWarning "MIT OR GPL-2.0"
      ∈ (groupStep sc3 ([], []) "MIT OR GPL-2.0").2
    ∧ _find_license_id sc3 "MIT OR GPL-2.0"
      ∈ akeys (groupStep sc3 ([], []) "MIT OR GPL-2.0").1 :=
  c3_expression_grouping sc3 ([], []) "MIT OR GPL-2.0"
    (by decide) (by decide) (by decide)

/-! ## Frequency-table lemmas (for C6) -/

theorem table_invariant (f : String → Nat) (iter : List String)
    (m0 : List (String × Nat)) (h1 : (akeys m0).Nodup)
    (h2 : ∀ p ∈ m0, p.2 = f p.1) :
    (akeys (iter.foldl (fun m k => aupsert m k (f k)) m0)).Nodup
    ∧ (∀ p ∈ iter.foldl (fun m k => aupsert m k (f k)) m0, p.2 = f p.1)
    ∧ (∀ a, a ∈ akeys (iter.foldl (fun m k => aupsert m k (f k)) m0)
        ↔ a ∈ akeys m0 ∨ a ∈ iter) := by
  induction iter generalizing m0 with
  | nil =>
    refine ⟨h1, h2, fun a => ?_⟩
    simp
  | cons k ks ih =>
    simp only [List.foldl_cons]
    have hn := akeys_nodup_aupsert k (f k) h1
    have hv : ∀ p ∈ aupsert m0 k (f k), p.2 = f p.1 := by
      intro p hp
      rcases mem_aupsert hp with rfl | hp
      · rfl
      · exact h2 p hp
    obtain ⟨ha, hb, hc⟩ := ih (aupsert m0 k (f k)) hn hv
    refine ⟨ha, hb, fun a => ?_⟩
    rw [hc a, mem_akeys_aupsert, List.mem_cons]
    tauto

theorem buildFreq_spec (l : List String) :
    ((buildFreq l).map Prod.snd).sum = l.length
    ∧ (∀ k n, alookup (buildFreq l) k = some n → n = l.count k)
    ∧ (∀ k, k ∈ l → alookup (buildFreq l) k = some (l.count k)) := by
  obtain ⟨h1, h2, h3⟩ := table_invariant (fun k => l.count k) (sortStrings l) []
    (by simp [akeys]) (by simp)
  have hb : buildFreq l
      = (sortStrings l).foldl (fun m k => aupsert m k (l.count k)) [] := rfl
  rw [← hb] at h1 h2 h3
  have hkeys : ∀ a, a ∈ akeys (buildFreq l) ↔ a ∈ l := by
    intro a
    rw [h3 a]
    simp [akeys, sortStrings, mem_sortLe]
  have harm2 : ∀ k n, alookup (buildFreq l) k = some n → n = l.count k := by
    intro k n h
    exact h2 (k, n) (alookup_mem h)
  refine ⟨?_, harm2, ?_⟩
  · have e1 : (buildFreq l).map Prod.snd
        = (buildFreq l).map (fun p => l.count p.1) :=
      List.map_congr_left h2
    have e2 : (buildFreq l).map (fun p => l.count p.1)
        = (akeys (buildFreq l)).map (fun k => l.count k) := by
      simp [akeys, List.map_map]
    have e3 : ((akeys (buildFreq l)).map (fun k => l.count k)).sum
        = (akeys (buildFreq l)).toFinset.sum (fun k => l.count k) :=
      (List.sum_toFinset _ h1).symm
    have e4 : (akeys (buildFreq l)).toFinset = l.toFinset := by
      apply Finset.ext
      intro a
      simp only [List.mem_toFinset]
      exact hkeys a
    have e5 : ∑ a in l.toFinset, l.count a = l.length := by
      simp [Multiset.toFinset_sum_count_eq (l : Multiset String)]
    rw [e1, e2, e3, e4]
    exact e5
  · intro k hk
    obtain ⟨v, hv⟩ := alookup_isSome_of_mem_akeys ((hkeys k).mpr hk)
    rw [hv, harm2 k v hv]

/-! ## C6: frequency counts are exact occurrence counts -/

/-- C6: for every input, the sum of all counts in the frequency table equals
the number of license references collected across all packages and files, and
every key's count equals the exact number of occurrences of that value in the
collected sequence. -/
theorem c6_freq_counts (license_info : LicenseScanner) (lookup : String → Option String)
    (include_license : Bool) (additional_license_texts : Option (List (String × String)))
    (packages files : List SbomRecord) (diag0 : Diagnostics) :
    (((generate_document license_info lookup include_license additional_license_texts
        packages files diag0).freq.map Prod.snd).sum
      = (generate_document license_info lookup include_license additional_license_texts
          packages files diag0).sbom_licenses.length)
    ∧ (∀ k n, alookup (generate_document license_info lookup include_license
          additional_license_texts packages files diag0).freq k = some n →
        n = (generate_document license_info lookup include_license
          additional_license_texts packages files diag0).sbom_licenses.count k)
    ∧ (∀ k, k ∈ (generate_document license_info lookup include_license
          additional_license_texts packages files diag0).sbom_licenses →
        alookup (generate_document license_info lookup include_license
          additional_license_texts packages files diag0).freq k
        = some ((generate_document license_info lookup include_license
            additional_license_texts packages files diag0).sbom_licenses.count k)) := by
  have hf : (generate_document license_info lookup include_license
      additional_license_texts packages files diag0).freq
    = buildFreq ((generate_document license_info lookup include_license
        additional_license_texts packages files diag0).sbom_licenses) := rfl
  rw [hf]
  exact buildFreq_spec _

/-- C6 witness: the count of a concrete collected reference. -/
theorem c6_witness :
    alookup (generate_document scU lookupNone false none [pApacheUrl, pApacheName]
      [] emptyDiag).freq "Apache-2.0 license"
    = some ((generate_document scU lookupNone false none [pApacheUrl, pApacheName]
        [] emptyDiag).sbom_licenses.count "Apache-2.0 license") :=
  (c6_freq_counts scU lookupNone false none [pApacheUrl, pApacheName] [] emptyDiag).2.2
    "Apache-2.0 license" (by decide)

/-! ## C7: the Apache scenario (corrected: no frequency is attached to the
grouped entry; the frequency table is keyed by the raw values) -/

/-- C7 counterexample: for the two-package Apache scenario, the aggregation
does produce the single grouped entry keyed "Apache-2.0", but the frequency
table — keyed by raw values — has NO entry for "Apache-2.0": no frequency 2
is associated with the grouped entry. -/
theorem c7_counterexample :
    (generate_document scU lookupNone false none [pApacheUrl, pApacheName]
      [] emptyDiag).licenses_by_id = [("Apache-2.0", none)]
    ∧ alookup (generate_document scU lookupNone false none [pApacheUrl, pApacheName]
        [] emptyDiag).freq "Apache-2.0" = none := by decide

/-- C7 amended: both raw values resolve to "Apache-2.0" and the aggregation
produces a single grouped entry with key "Apache-2.0"; the frequency table is
keyed by the raw license values, each with count 1, and its counts total 2 —
no frequency is stored under the resolved key. -/
theorem c7_apache_grouping (license_info : LicenseScanner)
    (lookup : String → Option String) :
    (generate_document license_info lookup false none [pApacheUrl, pApacheName]
      [] emptyDiag).sbom_licenses
      = ["https://www.apache.org/licenses/LICENSE-2.0", "Apache-2.0 license"]
    ∧ akeys (generate_document license_info lookup false none [pApacheUrl, pApacheName]
        [] emptyDiag).licenses_by_id = ["Apache-2.0"]
    ∧ alookup (generate_document license_info lookup false none [pApacheUrl, pApacheName]
        [] emptyDiag).freq "Apache-2.0 license" = some 1
    ∧ alookup (generate_document license_info lookup false none [pApacheUrl, pApacheName]
        [] emptyDiag).freq "https://www.apache.org/licenses/LICENSE-2.0" = some 1
    ∧ (((generate_document license_info lookup false none [pApacheUrl, pApacheName]
        [] emptyDiag).freq.map Prod.snd).sum = 2) :=
  ⟨rfl, rfl, rfl, rfl, rfl⟩

/-! ## Rendering-stage lemmas (for C4 and C10) -/

theorem renderStep_guard :
    (fun (d : List String) (l : String × Option String) =>
      if l.1 = "UNKNOWN" ∨ l.1 = "NOASSERTION" ∨ l.1 = "" then d
      else
        match l.2 with
        | some _ => d
        | none => insertKey d l.1)
    = fun d l => if renderEligible l then insertKey d l.1 else d := by
  funext d l
  by_cases h : l.1 = "UNKNOWN" ∨ l.1 = "NOASSERTION" ∨ l.1 = ""
  · simp [h, renderEligible]
  · cases hl : l.2 <;> simp [h, renderEligible, hl]

theorem mem_foldl_guard {β : Type} (c : β → Bool) (key : β → String)
    (items : List β) (d : List String) (a : String) :
    a ∈ items.foldl (fun d it => if c it then insertKey d (key it) else d) d
    ↔ a ∈ d ∨ ∃ it ∈ items, c it = true ∧ key it = a := by
  induction items generalizing d with
  | nil => simp
  | cons x xs ih =>
    simp only [List.foldl_cons]
    rw [ih]
    have hsplit : (∃ it ∈ x :: xs, c it = true ∧ key it = a)
        ↔ ((c x = true ∧ key x = a) ∨ ∃ it ∈ xs, c it = true ∧ key it = a) := by
      constructor
      · rintro ⟨it, hit, h⟩
        rcases List.mem_cons.mp hit with rfl | hit
        · exact Or.inl h
        · exact Or.inr ⟨it, hit, h⟩
      · rintro (h | ⟨it, hit, h⟩)
        · exact ⟨x, List.mem_cons_self _ _, h⟩
        · exact ⟨it, List.mem_cons_of_mem _ hit, h⟩
    rw [hsplit]
    by_cases hx : c x = true
    · rw [if_pos hx, mem_insertKey]
      tauto
    · rw [if_neg hx]
      have : ¬ (c x = true ∧ key x = a) := fun hh => hx hh.1
      tauto

theorem mem_renderUnknown (m : List (String × Option String)) (d : List String)
    (a : String) :
    a ∈ renderUnknown m d
    ↔ a ∈ d ∨ ∃ p ∈ m, renderEligible p = true ∧ p.1 = a := by
  unfold renderUnknown
  rw [renderStep_guard, mem_foldl_guard]
  constructor
  · rintro (h | ⟨p, hp, h⟩)
    · exact Or.inl h
    · exact Or.inr ⟨p, (mem_sortLe _ _ _).mp hp, h⟩
  · rintro (h | ⟨p, hp, h⟩)
    · exact Or.inl h
    · exact Or.inr ⟨p, (mem_sortLe _ _ _).mpr hp, h⟩

/-! ## C4: enrichment fallback chain (corrected: the missing-text diagnostic
happens at rendering time, which skips the ids "UNKNOWN", "NOASSERTION", "") -/

/-- C4 counterexample: the grouped entry "UNKNOWN" is not skipped by the
enrichment skip rules, its lookup fails and the (empty) override table misses,
its text stays absent — yet no entry is recorded in the missing-license-text
diagnostic set, because the recording happens in the rendering stage, which
skips the id "UNKNOWN". -/
theorem c4_counterexample :
    (generate_document scU lookupNone true (some []) [pUnknown] []
      emptyDiag).licenses_by_id = [("UNKNOWN", none)]
    ∧ (generate_document scU lookupNone true (some []) [pUnknown] []
        emptyDiag).diag.unknown_license_text_id_list = [] := by decide

/-- C4 amended: for a grouped entry lacking text and not skipped (not
"NOASSERTION", not longer than 200, not an expression, no space in the
stripped key, not starting with "http"): the external lookup's result is used
when it succeeds; on lookup failure the override table keyed by the
upper-cased stripped id supplies the text, and then rendering makes no
diagnostic entry; if the override also misses, the text stays absent and the
id is recorded in the missing-license-text diagnostic set at rendering time —
unless the id is "UNKNOWN" or the empty string, which rendering skips.
Enrichment is a total function, so it never raises. -/
theorem c4_enrichment (license_info : LicenseScanner) (lookup : String → Option String)
    (tbl : List (String × String)) (key : String)
    (h1 : key ≠ "NOASSERTION") (h2 : ¬ 200 < key.length)
    (h3 : license_info.license_expression key = false)
    (h4 : ¬ ' ' ∈ (pyStrip key).data)
    (h5 : pyStartsWith (pyStrip key) "http" = false) :
    (∀ t, lookup (pyStrip key) = some t →
      enrichText license_info lookup (some tbl) key none = some t)
    ∧ (∀ t, lookup (pyStrip key) = none →
      alookup tbl (pyUpper (pyStrip key)) = some t →
      enrichText license_info lookup (some tbl) key none = some t
      ∧ ∀ d, key ∉ d →
          key ∉ renderUnknown
            [(key, enrichText license_info lookup (some tbl) key none)] d)
    ∧ (lookup (pyStrip key) = none →
      alookup tbl (pyUpper (pyStrip key)) = none →
      enrichText license_info lookup (some tbl) key none = none
      ∧ (key ≠ "UNKNOWN" → key ≠ "" →
          ∀ d, key ∈ renderUnknown [(key, none)] d)) := by
  refine ⟨?_, ?_, ?_⟩
  · intro t h
    simp [enrichText, h1, h2, h3, h4, h5, h]
  · intro t hl ha
    have he : enrichText license_info lookup (some tbl) key none = some t := by
      simp [enrichText, h1, h2, h3, h4, h5, hl, ha]
    refine ⟨he, fun d hd => ?_⟩
    rw [he]
    intro hmem
    rcases (mem_renderUnknown [(key, some t)] d key).mp hmem with h | ⟨p, hp, hel, _⟩
    · exact hd h
    · rcases List.mem_singleton.mp hp with rfl
      simp [renderEligible] at hel
  · intro hl ha
    have he : enrichText license_info lookup (some tbl) key none = none := by
      simp [enrichText, h1, h2, h3, h4, h5, hl, ha]
    refine ⟨he, fun hku hke d => ?_⟩
    apply (mem_renderUnknown [(key, none)] d key).mpr
    refine Or.inr ⟨(key, none), List.mem_singleton_self _, ?_, rfl⟩
    simp [renderEligible, h1, hku, hke]

/-- C4 witness: override-table success with no diagnostic entry, and a full
miss that is recorded at rendering time. -/
theorem c4_witness :
    (enrichText scU lookupNone (some [("MIT", "mit text")]) "MIT" none
        = some "mit text"
      ∧ "MIT" ∉ renderUnknown
          [("MIT", enrichText scU lookupNone (some [("MIT", "mit text")]) "MIT" none)] [])
    ∧ (enrichText scU lookupNone (some []) "Zlib" none = none
      ∧ "Zlib" ∈ renderUnknown [("Zlib", none)] []) := by
  constructor
  · have h := (c4_enrichment scU lookupNone [("MIT", "mit text")] "MIT"
      (by decide) (by decide) (by decide) (by decide) (by decide)).2.1 "mit text"
      rfl (by decide)
    exact ⟨h.1, h.2 [] (by decide)⟩
  · have h := (c4_enrichment scU lookupNone [] "Zlib"
      (by decide) (by decide) (by decide) (by decide) (by decide)).2.2 rfl (by decide)
    exact ⟨h.1, h.2 (by decide) (by decide) []⟩

/-! ## Pipeline-state lemmas (for C10) -/

theorem _get_licenses_snd (o : SbomRecord) (d : List String) :
    (_get_licenses o d).2 = if licMissing o then insertKey d (pnameOf o) else d := by
  by_cases h1 : 0 < (licenseListSimple o).length
  · have hm : ¬ licMissing o = true := by
      unfold licMissing
      rw [decide_eq_true_eq]
      exact fun hh => hh.1 h1
    rw [if_neg hm]
    simp only [_get_licenses]
    rw [if_pos h1]
  · by_cases h2 : o.licenseconcluded.getD "NOT KNOWN" = "NOT KNOWN"
    · have hm : licMissing o = true := by
        unfold licMissing
        rw [decide_eq_true_eq]
        exact ⟨h1, h2⟩
      rw [if_pos hm]
      simp only [_get_licenses]
      rw [if_neg h1, if_pos h2]
    · have hm : ¬ licMissing o = true := by
        unfold licMissing
        rw [decide_eq_true_eq]
        exact fun hh => h2 hh.2
      rw [if_neg hm]
      simp only [_get_licenses]
      rw [if_neg h1, if_neg h2]

theorem _get_copyright_snd (o : SbomRecord) (d : List String) :
    (_get_copyright o d).2 = if copyMissing o then insertKey d (pnameOf o) else d := by
  by_cases h : ("Not extracted, please search " ++ pnameOf o)
      = o.copyrighttext.getD ("Not extracted, please search " ++ pnameOf o)
  · have hm : copyMissing o = true := by
      unfold copyMissing
      rw [decide_eq_true_eq]
      exact h
    rw [if_pos hm]
    simp only [_get_copyright]
    rw [if_pos h]
  · have hm : ¬ copyMissing o = true := by
      unfold copyMissing
      rw [decide_eq_true_eq]
      exact h
    rw [if_neg hm]
    simp only [_get_copyright]
    rw [if_neg h]

theorem _get_licenses_fst (o : SbomRecord) (d : List String) :
    (_get_licenses o d).1 = (_get_licenses o []).1 := by
  by_cases h1 : 0 < (licenseListSimple o).length
  · simp only [_get_licenses]
    rw [if_pos h1, if_pos h1]
  · by_cases h2 : o.licenseconcluded.getD "NOT KNOWN" = "NOT KNOWN"
    · simp only [_get_licenses]
      rw [if_neg h1, if_neg h1, if_pos h2, if_pos h2]
    · simp only [_get_licenses]
      rw [if_neg h1, if_neg h1, if_neg h2, if_neg h2]

theorem collect_foldl_snd (rs : List SbomRecord) (acc : List String × List String) :
    (rs.foldl collectStep acc).2
      = rs.foldl (fun d r => (_get_licenses r d).2) acc.2 := by
  induction rs generalizing acc with
  | nil => rfl
  | cons r rs ih =>
    simp only [List.foldl_cons]
    exact ih _

theorem collect_foldl_fst (rs : List SbomRecord) (acc acc' : List String × List String)
    (h : acc.1 = acc'.1) :
    (rs.foldl collectStep acc).1 = (rs.foldl collectStep acc').1 := by
  induction rs generalizing acc acc' with
  | nil => exact h
  | cons r rs ih =>
    simp only [List.foldl_cons]
    apply ih
    show acc.1 ++ (_get_licenses r acc.2).1 = acc'.1 ++ (_get_licenses r acc'.2).1
    rw [h, _get_licenses_fst r acc.2, _get_licenses_fst r acc'.2]

theorem pkg_foldl_fst (ps : List SbomRecord) (acc : List String × List String) :
    (ps.foldl packageLoopStep acc).1
      = ps.foldl (fun d p => (_get_licenses p d).2) acc.1 := by
  induction ps generalizing acc with
  | nil => rfl
  | cons p ps ih =>
    simp only [List.foldl_cons]
    exact ih _

theorem pkg_foldl_snd (ps : List SbomRecord) (acc : List String × List String) :
    (ps.foldl packageLoopStep acc).2
      = ps.foldl (fun d p => (_get_copyright p d).2) acc.2 := by
  induction ps generalizing acc with
  | nil => rfl
  | cons p ps ih =>
    simp only [List.foldl_cons]
    exact ih _

theorem mem_licFold (rs : List SbomRecord) (d : List String) (a : String) :
    a ∈ rs.foldl (fun d r => (_get_licenses r d).2) d
    ↔ a ∈ d ∨ ∃ r ∈ rs, licMissing r = true ∧ pnameOf r = a := by
  have he : (fun (d : List String) (r : SbomRecord) => (_get_licenses r d).2)
      = fun d r => if licMissing r then insertKey d (pnameOf r) else d := by
    funext d r
    exact _get_licenses_snd r d
  rw [he, mem_foldl_guard]

theorem mem_copyFold (rs : List SbomRecord) (d : List String) (a : String) :
    a ∈ rs.foldl (fun d r => (_get_copyright r d).2) d
    ↔ a ∈ d ∨ ∃ r ∈ rs, copyMissing r = true ∧ pnameOf r = a := by
  have he : (fun (d : List String) (r : SbomRecord) => (_get_copyright r d).2)
      = fun d r => if copyMissing r then insertKey d (pnameOf r) else d := by
    funext d r
    exact _get_copyright_snd r d
  rw [he, mem_foldl_guard]

theorem gen_lic_eq (license_info : LicenseScanner) (lookup : String → Option String)
    (incl : Bool) (add : Option (List (String × String)))
    (P F : List SbomRecord) (d0 : Diagnostics) :
    (generate_document license_info lookup incl add P F d0).diag.license_info_missing_package_id_list
    = P.foldl (fun d p => (_get_licenses p d).2)
        (F.foldl (fun d r => (_get_licenses r d).2)
          (P.foldl (fun d r => (_get_licenses r d).2)
            d0.license_info_missing_package_id_list)) := by
  have h0 : (generate_document license_info lookup incl add P F
        d0).diag.license_info_missing_package_id_list
      = (P.foldl packageLoopStep
          ((F.foldl collectStep
            (P.foldl collectStep ([], d0.license_info_missing_package_id_list))).2,
           d0.copyright_info_missing_package_name_list)).1 := rfl
  rw [h0, pkg_foldl_fst, collect_foldl_snd, collect_foldl_snd]

theorem gen_copy_eq (license_info : LicenseScanner) (lookup : String → Option String)
    (incl : Bool) (add : Option (List (String × String)))
    (P F : List SbomRecord) (d0 : Diagnostics) :
    (generate_document license_info lookup incl add P F d0).diag.copyright_info_missing_package_name_list
    = P.foldl (fun d p => (_get_copyright p d).2)
        d0.copyright_info_missing_package_name_list := by
  have h0 : (generate_document license_info lookup incl add P F
        d0).diag.copyright_info_missing_package_name_list
      = (P.foldl packageLoopStep
          ((F.foldl collectStep
            (P.foldl collectStep ([], d0.license_info_missing_package_id_list))).2,
           d0.copyright_info_missing_package_name_list)).2 := rfl
  rw [h0, pkg_foldl_snd]

theorem gen_byId_independent (license_info : LicenseScanner)
    (lookup : String → Option String) (incl : Bool)
    (add : Option (List (String × String))) (P F : List SbomRecord)
    (d0 d1 : Diagnostics) :
    (generate_document license_info lookup incl add P F d0).licenses_by_id
    = (generate_document license_info lookup incl add P F d1).licenses_by_id := by
  have hacc : (F.foldl collectStep
        (P.foldl collectStep ([], d0.license_info_missing_package_id_list))).1
      = (F.foldl collectStep
          (P.foldl collectStep ([], d1.license_info_missing_package_id_list))).1 :=
    collect_foldl_fst F _ _ (collect_foldl_fst P _ _ rfl)
  show (if incl then
        enrichAll license_info lookup add
          (groupLicenses license_info
            ((buildFreq ((F.foldl collectStep
              (P.foldl collectStep ([], d0.license_info_missing_package_id_list))).1)).map
              Prod.fst)).1
      else
        (groupLicenses license_info
          ((buildFreq ((F.foldl collectStep
            (P.foldl collectStep ([], d0.license_info_missing_package_id_list))).1)).map
            Prod.fst)).1)
    = _
  rw [hacc]
  rfl

theorem gen_lic_mem (license_info : LicenseScanner) (lookup : String → Option String)
    (incl : Bool) (add : Option (List (String × String)))
    (P F : List SbomRecord) (d : Diagnostics) (a : String) :
    a ∈ (generate_document license_info lookup incl add P F d).diag.license_info_missing_package_id_list
    ↔ a ∈ d.license_info_missing_package_id_list
      ∨ a ∈ (generate_document license_info lookup incl add P F
          emptyDiag).diag.license_info_missing_package_id_list := by
  rw [gen_lic_eq, gen_lic_eq]
  have he : emptyDiag.license_info_missing_package_id_list = [] := rfl
  rw [he]
  simp only [mem_licFold, List.not_mem_nil, false_or]
  generalize (∃ r ∈ P, licMissing r = true ∧ pnameOf r = a) = EP
  generalize (∃ r ∈ F, licMissing r = true ∧ pnameOf r = a) = EF
  tauto

theorem gen_copy_mem (license_info : LicenseScanner) (lookup : String → Option String)
    (incl : Bool) (add : Option (List (String × String)))
    (P F : List SbomRecord) (d : Diagnostics) (a : String) :
    a ∈ (generate_document license_info lookup incl add P F d).diag.copyright_info_missing_package_name_list
    ↔ a ∈ d.copyright_info_missing_package_name_list
      ∨ a ∈ (generate_document license_info lookup incl add P F
          emptyDiag).diag.copyright_info_missing_package_name_list := by
  rw [gen_copy_eq, gen_copy_eq]
  have he : emptyDiag.copyright_info_missing_package_name_list = [] := rfl
  rw [he]
  simp only [mem_copyFold, List.not_mem_nil, false_or]

theorem gen_unknown_mem (license_info : LicenseScanner) (lookup : String → Option String)
    (incl : Bool) (add : Option (List (String × String)))
    (P F : List SbomRecord) (d : Diagnostics) (a : String) :
    a ∈ (generate_document license_info lookup incl add P F d).diag.unknown_license_text_id_list
    ↔ a ∈ d.unknown_license_text_id_list
      ∨ a ∈ (generate_document license_info lookup incl add P F
          emptyDiag).diag.unknown_license_text_id_list := by
  have hb := gen_byId_independent license_info lookup incl add P F d emptyDiag
  cases incl with
  | false =>
    have h1 : (generate_document license_info lookup false add P F
        d).diag.unknown_license_text_id_list = d.unknown_license_text_id_list := rfl
    have h2 : (generate_document license_info lookup false add P F
        emptyDiag).diag.unknown_license_text_id_list = [] := rfl
    rw [h1, h2]
    simp
  | true =>
    have h1 : (generate_document license_info lookup true add P F
        d).diag.unknown_license_text_id_list
        = renderUnknown
            ((generate_document license_info lookup true add P F d).licenses_by_id)
            d.unknown_license_text_id_list := rfl
    have h2 : (generate_document license_info lookup true add P F
        emptyDiag).diag.unknown_license_text_id_list
        = renderUnknown
            ((generate_document license_info lookup true add P F
              emptyDiag).licenses_by_id) [] := rfl
    rw [h1, h2, hb]
    rw [mem_renderUnknown, mem_renderUnknown]
    simp only [List.not_mem_nil, false_or]

/-! ## C10: diagnostic sets only accumulate across calls -/

/-- C10: the three diagnostic sets are module-level state that
generate_document never clears: each call only adds keys, so entries present
before a call are present after it; after two successive calls from a fresh
state each set holds the union of the entries produced by both calls; and the
CSV diagnostics written at the end of the later call include rows for entries
originating from the earlier call. -/
theorem c10_diag_accumulation :
    (∀ (license_info : LicenseScanner) (lookup : String → Option String)
        (incl : Bool) (add : Option (List (String × String)))
        (P F : List SbomRecord) (d : Diagnostics) (a : String),
      (a ∈ d.license_info_missing_package_id_list →
        a ∈ (generate_document license_info lookup incl add P F
            d).diag.license_info_missing_package_id_list)
      ∧ (a ∈ d.copyright_info_missing_package_name_list →
        a ∈ (generate_document license_info lookup incl add P F
            d).diag.copyright_info_missing_package_name_list)
      ∧ (a ∈ d.unknown_license_text_id_list →
        a ∈ (generate_document license_info lookup incl add P F
            d).diag.unknown_license_text_id_list))
    ∧ (∀ (li1 : LicenseScanner) (lk1 : String → Option String) (i1 : Bool)
        (a1 : Option (List (String × String))) (P1 F1 : List SbomRecord)
        (li2 : LicenseScanner) (lk2 : String → Option String) (i2 : Bool)
        (a2 : Option (List (String × String))) (P2 F2 : List SbomRecord)
        (a : String),
      (a ∈ (generate_document li2 lk2 i2 a2 P2 F2
            (generate_document li1 lk1 i1 a1 P1 F1
              emptyDiag).diag).diag.license_info_missing_package_id_list
        ↔ a ∈ (generate_document li1 lk1 i1 a1 P1 F1
              emptyDiag).diag.license_info_missing_package_id_list
          ∨ a ∈ (generate_document li2 lk2 i2 a2 P2 F2
              emptyDiag).diag.license_info_missing_package_id_list)
      ∧ (a ∈ (generate_document li2 lk2 i2 a2 P2 F2
            (generate_document li1 lk1 i1 a1 P1 F1
              emptyDiag).diag).diag.copyright_info_missing_package_name_list
        ↔ a ∈ (generate_document li1 lk1 i1 a1 P1 F1
              emptyDiag).diag.copyright_info_missing_package_name_list
          ∨ a ∈ (generate_document li2 lk2 i2 a2 P2 F2
              emptyDiag).diag.copyright_info_missing_package_name_list)
      ∧ (a ∈ (generate_document li2 lk2 i2 a2 P2 F2
            (generate_document li1 lk1 i1 a1 P1 F1
              emptyDiag).diag).diag.unknown_license_text_id_list
        ↔ a ∈ (generate_document li1 lk1 i1 a1 P1 F1
              emptyDiag).diag.unknown_license_text_id_list
          ∨ a ∈ (generate_document li2 lk2 i2 a2 P2 F2
              emptyDiag).diag.unknown_license_text_id_list))
    ∧ (∀ (li1 : LicenseScanner) (lk1 : String → Option String) (i1 : Bool)
        (a1 : Option (List (String × String))) (P1 F1 : List SbomRecord)
        (li2 : LicenseScanner) (lk2 : String → Option String) (i2 : Bool)
        (a2 : Option (List (String × String))) (P2 F2 : List SbomRecord)
        (a : String),
      (a ∈ (generate_document li1 lk1 i1 a1 P1 F1
            emptyDiag).diag.license_info_missing_package_id_list →
        ("\"" ++ a ++ "\",\"\"") ∈ csvMissingLicenseLines
          (generate_document li2 lk2 i2 a2 P2 F2
            (generate_document li1 lk1 i1 a1 P1 F1 emptyDiag).diag).diag)
      ∧ (a ∈ (generate_document li1 lk1 i1 a1 P1 F1
            emptyDiag).diag.copyright_info_missing_package_name_list →
        ("\"" ++ a ++ "\",\"\"") ∈ csvMissingCopyrightLines
          (generate_document li2 lk2 i2 a2 P2 F2
            (generate_document li1 lk1 i1 a1 P1 F1 emptyDiag).diag).diag)
      ∧ (a ∈ (generate_document li1 lk1 i1 a1 P1 F1
            emptyDiag).diag.unknown_license_text_id_list →
        ("\"" ++ a ++ "\",\"\",\"\"") ∈ csvMissingLicenseTextLines
          (generate_document li2 lk2 i2 a2 P2 F2
            (generate_document li1 lk1 i1 a1 P1 F1 emptyDiag).diag).diag)) := by
  refine ⟨?_, ?_, ?_⟩
  · intro li lk i ad P F d a
    exact ⟨fun h => (gen_lic_mem li lk i ad P F d a).mpr (Or.inl h),
           fun h => (gen_copy_mem li lk i ad P F d a).mpr (Or.inl h),
           fun h => (gen_unknown_mem li lk i ad P F d a).mpr (Or.inl h)⟩
  · intro li1 lk1 i1 a1 P1 F1 li2 lk2 i2 a2 P2 F2 a
    exact ⟨gen_lic_mem li2 lk2 i2 a2 P2 F2 _ a,
           gen_copy_mem li2 lk2 i2 a2 P2 F2 _ a,
           gen_unknown_mem li2 lk2 i2 a2 P2 F2 _ a⟩
  · intro li1 lk1 i1 a1 P1 F1 li2 lk2 i2 a2 P2 F2 a
    refine ⟨fun h => ?_, fun h => ?_, fun h => ?_⟩
    · have hm := (gen_lic_mem li2 lk2 i2 a2 P2 F2
        (generate_document li1 lk1 i1 a1 P1 F1 emptyDiag).diag a).mpr (Or.inl h)
      exact List.mem_cons_of_mem _ (List.mem_map_of_mem _ hm)
    · have hm := (gen_copy_mem li2 lk2 i2 a2 P2 F2
        (generate_document li1 lk1 i1 a1 P1 F1 emptyDiag).diag a).mpr (Or.inl h)
      exact List.mem_cons_of_mem _ (List.mem_map_of_mem _ hm)
    · have hm := (gen_unknown_mem li2 lk2 i2 a2 P2 F2
        (generate_document li1 lk1 i1 a1 P1 F1 emptyDiag).diag a).mpr (Or.inl h)
      exact List.mem_cons_of_mem _ (List.mem_map_of_mem _ hm)

/-- C10 witness: a pre-existing entry survives a call, and the missing-license
CSV of a second call contains the row produced by the first call. -/
theorem c10_witness :
    "seed" ∈ (generate_document scU lookupNone false none [qMissing] []
        ⟨["seed"], [], []⟩).diag.license_info_missing_package_id_list
    ∧ "\"pkg-name-1\",\"\"" ∈ csvMissingLicenseLines
        (generate_document scU lookupNone false none [qMissing] []
          (generate_document scU lookupNone false none [pMissing] []
            emptyDiag).diag).diag :=
  ⟨(c10_diag_accumulation.1 scU lookupNone false none [qMissing] []
      ⟨["seed"], [], []⟩ "seed").1 (by decide),
   (c10_diag_accumulation.2.2 scU lookupNone false none [pMissing] []
      scU lookupNone false none [qMissing] [] "pkg-name-1").1 (by decide)⟩
